import Mathlib

/-!
Verification of the chess-player query/ranking/statistics engine
(`players.service.ts`, `baseService.ts`) against its natural-language
specification.  The TypeScript code is shallowly embedded: JavaScript
numbers that the code only ever uses as integers become `Int`/`Nat`,
absent (`undefined`/`null`) values become `Option`, thrown
`BadRequestError`s become `Except`/dedicated outcome constructors, and
Mongo predicates are interpreted as executable Lean predicates on the
embedded `Player` record.
-/

/-- Model of ECMAScript `parseInt(s)` (radix 10) restricted to the decimal
inputs this service receives: leading whitespace is skipped, an optional
sign is read, then the longest digit run is parsed; `none` models `NaN`
(no parsable digits).  The `0x` hexadecimal special case of `parseInt` is
not modelled; it never yields `NaN`, so error behaviour is unaffected. -/
def parseIntJS (s : String) : Option Int :=
  let l := s.data.dropWhile (fun c => c.isWhitespace)
  match l with
  | '-' :: rest => (parseIntJS.leadDigits rest).map (fun n => -(n : Int))
  | '+' :: rest => (parseIntJS.leadDigits rest).map (fun n => (n : Int))
  | _ => (parseIntJS.leadDigits l).map (fun n => (n : Int))
where
  /-- Longest leading digit run as a number; `none` if there is none. -/
  leadDigits (l : List Char) : Option Nat :=
    let ds := l.takeWhile (fun c => c.isDigit)
    if ds.isEmpty then none
    else some (ds.foldl (fun a c => a * 10 + (c.toNat - 48)) 0)

/-- JavaScript `String(x)` applied to a possibly-`undefined` query
parameter: an absent parameter stringifies to `"undefined"`. -/
def jsStringOfOpt : Option String → String
  | none => "undefined"
  | some s => s

/-- JavaScript `String(x)` applied to a `string | null` field: `null`
stringifies to `"null"`. -/
def jsStringOfNullable : Option String → String
  | none => "null"
  | some s => s

/-- JavaScript `v || d` where `v` is the result of `parseInt`: `NaN`
(modelled `none`) and `0` are falsy and fall back to the default `d`. -/
def jsOrDefault (v : Option Int) (d : Int) : Int :=
  match v with
  | none => d
  | some x => if x = 0 then d else x

/-- JavaScript truthiness of an optional string parameter: present and
non-empty. -/
def jsTruthy (o : Option String) : Bool :=
  match o with
  | none => false
  | some s => s ≠ ""

/-- Embedding of `PlayersService.validatePagination` (players.service.ts
lines 28-33): `page = Math.max(0, parseInt(String(page)) || 0)`,
`size = Math.min(100, Math.max(1, parseInt(String(size)) || 20))`. -/
def validatePagination (page size : Option String) : Int × Int :=
  let pageNum := max 0 (jsOrDefault (parseIntJS (jsStringOfOpt page)) 0)
  let sizeNum := min 100 (max 1 (jsOrDefault (parseIntJS (jsStringOfOpt size)) 20))
  (pageNum, sizeNum)

/-- C7: normalized page is always ≥ 0 and defaults to 0 on absent or
non-numeric input (negative clamps to 0); normalized size is always in
[1,100], defaults to 20 on absent or non-numeric input; size 1 and 100
pass through unchanged while 0, -5 and 101 are forced into [1,100]. -/
theorem validatePagination_normalizes (p s : Option String) :
    (0 ≤ (validatePagination p s).1
      ∧ 1 ≤ (validatePagination p s).2 ∧ (validatePagination p s).2 ≤ 100)
    ∧ (parseIntJS (jsStringOfOpt p) = none → (validatePagination p s).1 = 0)
    ∧ (parseIntJS (jsStringOfOpt s) = none → (validatePagination p s).2 = 20)
    ∧ validatePagination none none = (0, 20)
    ∧ (validatePagination none (some "1")).2 = 1
    ∧ (validatePagination none (some "100")).2 = 100
    ∧ (validatePagination none (some "0")).2 = 20
    ∧ (validatePagination none (some "-5")).2 = 1
    ∧ (validatePagination none (some "101")).2 = 100
    ∧ (validatePagination (some "-7") none).1 = 0 := by
  refine ⟨⟨?_, ?_, ?_⟩, ?_, ?_, by decide, by decide, by decide, by decide, by decide,
    by decide, by decide⟩
  · simp only [validatePagination]
    omega
  · simp only [validatePagination]
    omega
  · simp only [validatePagination]
    omega
  · intro h
    simp only [validatePagination, h, jsOrDefault]
    omega
  · intro h
    simp only [validatePagination, h, jsOrDefault]
    omega

/-- Witness for C7 at a concrete non-numeric input pair. -/
theorem validatePagination_normalizes_witness :
    (validatePagination (some "abc") (some "xyz")).1 = 0
      ∧ (validatePagination (some "abc") (some "xyz")).2 = 20 :=
  ⟨(validatePagination_normalizes (some "abc") (some "xyz")).2.1 (by decide),
   (validatePagination_normalizes (some "abc") (some "xyz")).2.2.1 (by decide)⟩

/-- Embedding of the stored `PlayerRecord` (players.model.ts): ratings and
game counts are `Number` fields holding non-negative integers (the spec's
data-model invariant: `0` is the unrated sentinel, ratings are never
negative), `birthday` and `flag` are nullable strings, and the title
fields are string arrays. -/
structure Player where
  id_number : String
  name : String
  federation : String
  sex : String
  title : List String
  w_title : List String
  o_title : List String
  foa : List String
  standard_rating : Nat
  standard_games : Nat
  sk : Nat
  rapid_rating : Nat
  rapid_games : Nat
  rk : Nat
  blitz_rating : Nat
  blitz_games : Nat
  bk : Nat
  birthday : Option String
  flag : Option String
deriving DecidableEq, Repr

/-- A concrete default record used to build test inputs. -/
def blankPlayer : Player :=
  { id_number := "0", name := "", federation := "NEP", sex := "M",
    title := [], w_title := [], o_title := [], foa := [],
    standard_rating := 0, standard_games := 0, sk := 0,
    rapid_rating := 0, rapid_games := 0, rk := 0,
    blitz_rating := 0, blitz_games := 0, bk := 0,
    birthday := none, flag := none }

/-- Metadata computed by `BaseService.getRows` (baseService.ts lines
32-53) from the store-reported `total`, the one-indexed `page` it was
called with and the `limit`: `totalPages = Math.ceil(total / limit)`
(for `limit > 0` this is `(total + limit - 1) / limit` in exact integer
arithmetic), `hasNext = page * limit < total`, `hasPrev = page > 1`. -/
structure GetRowsMeta where
  total : Nat
  totalPages : Nat
  hasNext : Bool
  hasPrev : Bool
deriving DecidableEq, Repr

/-- Embedding of the metadata part of `BaseService.getRows`. -/
def getRowsMeta (total page limit : Nat) : GetRowsMeta :=
  { total := total
    totalPages := (total + limit - 1) / limit
    hasNext := decide (page * limit < total)
    hasPrev := decide (1 < page) }

/-- The response pagination envelope assembled by the service operations
(e.g. `searchByName`, players.service.ts lines 91-101): the service calls
`getRows(filter, pageNum + 1, sizeNum)` with the zero-indexed normalized
page converted to one-indexed, then copies `totalPages`/`hasNext` from
the store result and computes `hasPrevious = pageNum > 0` itself. -/
structure PaginationEnvelope where
  page : Nat
  size : Nat
  totalItems : Nat
  totalPages : Nat
  hasNext : Bool
  hasPrevious : Bool
deriving DecidableEq, Repr

/-- Embedding of the envelope construction shared by the service's
paginated operations. -/
def buildEnvelope (pageNum sizeNum total : Nat) : PaginationEnvelope :=
  let r := getRowsMeta total (pageNum + 1) sizeNum
  { page := pageNum
    size := sizeNum
    totalItems := total
    totalPages := r.totalPages
    hasNext := r.hasNext
    hasPrevious := decide (0 < pageNum) }

/-- For positive divisors, the exact integer formula used by the code for
`Math.ceil(total / limit)` agrees with the rational ceiling. -/
theorem add_pred_div_eq_ceil (a b : Nat) (hb : 0 < b) :
    (a + b - 1) / b = ⌈(a : ℚ) / (b : ℚ)⌉₊ := by
  have hbq : (0 : ℚ) < (b : ℚ) := by exact_mod_cast hb
  rw [← Nat.ceilDiv_eq_add_pred_div]
  apply le_antisymm
  · rw [ceilDiv_le_iff_le_mul hb]
    have h1 : (a : ℚ) / b ≤ (⌈(a : ℚ) / b⌉₊ : ℚ) := Nat.le_ceil _
    rw [div_le_iff₀ hbq] at h1
    have h2 : (a : ℚ) ≤ ((b * ⌈(a : ℚ) / b⌉₊ : Nat) : ℚ) := by
      push_cast
      linarith [h1]
    exact_mod_cast h2
  · rw [Nat.ceil_le]
    have h3 : a ≤ b * (a ⌈/⌉ b) := (ceilDiv_le_iff_le_mul hb).mp le_rfl
    rw [div_le_iff₀ hbq]
    have h4 : ((a : Nat) : ℚ) ≤ ((b * (a ⌈/⌉ b) : Nat) : ℚ) := by exact_mod_cast h3
    push_cast at h4
    linarith [h4]

/-- C5: for every normalized page, size in [1,100] and store-reported
total, the envelope satisfies `totalPages = ceil(totalItems / size)`,
`hasNext ↔ (page+1)*size < totalItems` and `hasPrevious ↔ page > 0`. -/
theorem buildEnvelope_spec (pageNum sizeNum total : Nat)
    (h1 : 1 ≤ sizeNum) (_h100 : sizeNum ≤ 100) :
    (buildEnvelope pageNum sizeNum total).totalPages
        = ⌈(total : ℚ) / (sizeNum : ℚ)⌉₊
      ∧ ((buildEnvelope pageNum sizeNum total).hasNext = true
        ↔ (pageNum + 1) * sizeNum < total)
      ∧ ((buildEnvelope pageNum sizeNum total).hasPrevious = true
        ↔ 0 < pageNum) := by
  refine ⟨?_, ?_, ?_⟩
  · exact add_pred_div_eq_ceil total sizeNum h1
  · simp [buildEnvelope, getRowsMeta]
  · simp [buildEnvelope]

/-- Witness for C5 at page 2, size 20 on a population of 45 matching
records: 3 total pages, no next page, a previous page exists. -/
theorem buildEnvelope_spec_witness :
    (1 ≤ 20 ∧ 20 ≤ 100)
      ∧ (buildEnvelope 2 20 45).totalPages = ⌈(45 : ℚ) / (20 : ℚ)⌉₊
      ∧ ((buildEnvelope 2 20 45).hasNext = true ↔ (2 + 1) * 20 < 45)
      ∧ ((buildEnvelope 2 20 45).hasPrevious = true ↔ 0 < 2) :=
  ⟨⟨by decide, by decide⟩, buildEnvelope_spec 2 20 45 (by decide) (by decide)⟩

/-- Output record of `PlayersService.addRankToPlayers` (players.service.ts
lines 1239-1248): the spread `{...player, rank}` copies every field of
the input record and adds `rank`. -/
structure RankedPlayer where
  player : Player
  rank : Nat
deriving DecidableEq, Repr

/-- Embedding of `PlayersService.addRankToPlayers`:
`players.map((player, index) => ({...player, rank: pageNum * sizeNum + index + 1}))`. -/
def addRankToPlayers (players : List Player) (pageNum sizeNum : Nat) : List RankedPlayer :=
  players.enum.map (fun pr => { player := pr.2, rank := pageNum * sizeNum + pr.1 + 1 })

/-- Age computation on the age-group ranking path (players.service.ts
lines 398-399): `birthYear = parseInt(String(player.birthday) || "1900")`
and `age = currentYear - birthYear`.  A `null` birthday stringifies to
the non-empty string `"null"`, so the `"1900"` fallback applies only to
the empty string and `parseInt` then yields `NaN` (modelled `none`). -/
def computeAge (currentYear : Int) (birthday : Option String) : Option Int :=
  let s := jsStringOfNullable birthday
  let s2 := if s = "" then "1900" else s
  (parseIntJS s2).map (fun b => currentYear - b)

/-- Output record of the age-group ranking enrichment (players.service.ts
lines 397-405): the spread copies every input field and adds `rank` and
`age`. -/
structure RankedAgedPlayer where
  player : Player
  rank : Nat
  age : Option Int
deriving DecidableEq, Repr

/-- Embedding of the inline map in `getRankingsByAgeGroup` adding rank
and age to each record of the returned page. -/
def addRankAndAge (currentYear : Int) (players : List Player)
    (pageNum sizeNum : Nat) : List RankedAgedPlayer :=
  players.enum.map (fun pr =>
    { player := pr.2
      rank := pageNum * sizeNum + pr.1 + 1
      age := computeAge currentYear pr.2.birthday })

theorem addRankToPlayers_length (players : List Player) (pageNum sizeNum : Nat) :
    (addRankToPlayers players pageNum sizeNum).length = players.length := by
  simp [addRankToPlayers]

theorem addRankAndAge_length (cy : Int) (players : List Player) (pageNum sizeNum : Nat) :
    (addRankAndAge cy players pageNum sizeNum).length = players.length := by
  simp [addRankAndAge]

theorem addRankToPlayers_get (players : List Player) (pageNum sizeNum k : Nat)
    (hk : k < (addRankToPlayers players pageNum sizeNum).length) :
    (addRankToPlayers players pageNum sizeNum).get ⟨k, hk⟩
      = { player := players.get ⟨k, by simpa [addRankToPlayers] using hk⟩
          rank := pageNum * sizeNum + k + 1 } := by
  have hk' : k < players.length := by simpa [addRankToPlayers] using hk
  simp [addRankToPlayers, List.get_eq_getElem, List.getElem_map, List.getElem_enum]

theorem addRankAndAge_get (cy : Int) (players : List Player) (pageNum sizeNum k : Nat)
    (hk : k < (addRankAndAge cy players pageNum sizeNum).length) :
    (addRankAndAge cy players pageNum sizeNum).get ⟨k, hk⟩
      = { player := players.get ⟨k, by simpa [addRankAndAge] using hk⟩
          rank := pageNum * sizeNum + k + 1
          age := computeAge cy
            (players.get ⟨k, by simpa [addRankAndAge] using hk⟩).birthday } := by
  have hk' : k < players.length := by simpa [addRankAndAge] using hk
  simp [addRankAndAge, List.get_eq_getElem, List.getElem_map, List.getElem_enum]

/-- C6: on both the plain ranking path (`addRankToPlayers`) and the
age-group ranking path, the k-th record of the page (0-indexed) receives
`rank = page * size + k + 1`, in page order, with no re-sorting. -/
theorem rank_of_kth_record (cy : Int) (players : List Player)
    (pageNum sizeNum k : Nat) :
    (∀ hk : k < (addRankToPlayers players pageNum sizeNum).length,
      ((addRankToPlayers players pageNum sizeNum).get ⟨k, hk⟩).rank
        = pageNum * sizeNum + k + 1)
    ∧ (∀ hk : k < (addRankAndAge cy players pageNum sizeNum).length,
      ((addRankAndAge cy players pageNum sizeNum).get ⟨k, hk⟩).rank
        = pageNum * sizeNum + k + 1) := by
  constructor
  · intro hk
    rw [addRankToPlayers_get]
  · intro hk
    rw [addRankAndAge_get]

/-- Witness for C6: on a concrete two-record page with page 2 and size
20, the records receive ranks 41 and 42. -/
theorem rank_of_kth_record_witness :
    ((addRankToPlayers [blankPlayer, blankPlayer] 2 20).get
        ⟨1, by decide⟩).rank = 42
    ∧ ((addRankAndAge 2025 [blankPlayer, blankPlayer] 2 20).get
        ⟨0, by decide⟩).rank = 41 :=
  ⟨(rank_of_kth_record 2025 [blankPlayer, blankPlayer] 2 20 1).1 (by decide),
   (rank_of_kth_record 2025 [blankPlayer, blankPlayer] 2 20 0).2 (by decide)⟩

/-- C10: rank annotation is a pure per-record extension — both enrichment
maps preserve the length and order of the page and leave every field of
each input record unchanged (the whole input record is embedded in the
output record), adding only `rank`, plus `age` on the age-group path. -/
theorem addRank_frame (cy : Int) (players : List Player) (pageNum sizeNum : Nat) :
    ((addRankToPlayers players pageNum sizeNum).length = players.length
      ∧ ∀ (k : Nat) (hk : k < players.length)
          (hk2 : k < (addRankToPlayers players pageNum sizeNum).length),
        ((addRankToPlayers players pageNum sizeNum).get ⟨k, hk2⟩).player
          = players.get ⟨k, hk⟩)
    ∧ ((addRankAndAge cy players pageNum sizeNum).length = players.length
      ∧ ∀ (k : Nat) (hk : k < players.length)
          (hk2 : k < (addRankAndAge cy players pageNum sizeNum).length),
        ((addRankAndAge cy players pageNum sizeNum).get ⟨k, hk2⟩).player
          = players.get ⟨k, hk⟩
        ∧ ((addRankAndAge cy players pageNum sizeNum).get ⟨k, hk2⟩).age
          = computeAge cy (players.get ⟨k, hk⟩).birthday) := by
  refine ⟨⟨addRankToPlayers_length players pageNum sizeNum, ?_⟩,
    ⟨addRankAndAge_length cy players pageNum sizeNum, ?_⟩⟩
  · intro k hk hk2
    rw [addRankToPlayers_get]
  · intro k hk hk2
    rw [addRankAndAge_get]
    exact ⟨rfl, rfl⟩

/-- Witness for C10 on a concrete one-record page. -/
theorem addRank_frame_witness :
    ((addRankToPlayers [blankPlayer] 0 20).get ⟨0, by decide⟩).player = blankPlayer
    ∧ ((addRankAndAge 2025 [blankPlayer] 0 20).get ⟨0, by decide⟩).player = blankPlayer :=
  ⟨(addRank_frame 2025 [blankPlayer] 0 20).1.2 0 (by decide) (by decide),
   ((addRank_frame 2025 [blankPlayer] 0 20).2.2 0 (by decide) (by decide)).1⟩

/-- The `validGroupCodes` list of `getRankingsByAgeGroup`
(players.service.ts line 343) — the eleven canonical codes that the
repository's API documentation also enumerates. -/
def rankingValidGroupCodes : List String :=
  ["U8", "U10", "U12", "U14", "U16", "U18", "S20", "S40", "S50", "S60", "S70"]

/-- The `ageGroupRanges` table of `getRankingsByAgeGroup`
(players.service.ts lines 355-366), transcribed exactly: it contains a
`U20` entry and no `S20` or `S40` entry. -/
def rankingAgeGroupRanges (currentYear : Int) : List (String × (Int × Int)) :=
  [("U8", (currentYear - 8, currentYear)),
   ("U10", (currentYear - 10, currentYear)),
   ("U12", (currentYear - 12, currentYear)),
   ("U14", (currentYear - 14, currentYear)),
   ("U16", (currentYear - 16, currentYear)),
   ("U18", (currentYear - 18, currentYear)),
   ("U20", (currentYear - 19, currentYear)),
   ("S50", (currentYear - 59, currentYear - 50)),
   ("S60", (currentYear - 69, currentYear - 60)),
   ("S70", (currentYear - 79, currentYear - 70))]

/-- JavaScript object-key lookup on the embedded range table. -/
def lookupRange (m : List (String × (Int × Int))) (k : String) : Option (Int × Int) :=
  (m.find? (fun e => e.1 == k)).map (fun e => e.2)

/-- Outcome of the validation-and-range-resolution prefix of
`getRankingsByAgeGroup`, before the store query is issued:
`invalidParameter` models the thrown `BadRequestError`, `crash` models
the uncaught `TypeError` raised by destructuring
`ageGroupRanges[groupCode]` when that key is absent (`undefined`) from
the table, and `resolved` carries the inclusive birth-year range. -/
inductive AgeGroupResolution where
  | invalidParameter (msg : String)
  | crash
  | resolved (minBirth maxBirth : Int)
deriving DecidableEq, Repr

/-- Embedding of the prefix of `getRankingsByAgeGroup` (players.service.ts
lines 343-372) up to the construction of the birthday filter. -/
def resolveRankingAgeGroup (currentYear : Int) (groupCode : String) : AgeGroupResolution :=
  if rankingValidGroupCodes.contains groupCode then
    match lookupRange (rankingAgeGroupRanges currentYear) groupCode with
    | some r => AgeGroupResolution.resolved r.1 r.2
    | none => AgeGroupResolution.crash
  else
    AgeGroupResolution.invalidParameter
      ("Invalid age group code. Allowed: " ++ String.intercalate ", " rankingValidGroupCodes)

/-- C1 (code_bug evidence): the codes `S20` and `S40` pass the
`validGroupCodes` validation of `getRankingsByAgeGroup` yet have no
entry in its `ageGroupRanges` table, so resolution crashes before any
store query; every one of the other nine canonical codes resolves to the
documented inclusive birth-year range. -/
theorem getRankingsByAgeGroup_crashes_on_S20_S40 (y : Int) :
    (rankingValidGroupCodes.contains "S20" = true
      ∧ resolveRankingAgeGroup y "S20" = AgeGroupResolution.crash)
    ∧ (rankingValidGroupCodes.contains "S40" = true
      ∧ resolveRankingAgeGroup y "S40" = AgeGroupResolution.crash)
    ∧ resolveRankingAgeGroup y "U8" = AgeGroupResolution.resolved (y - 8) y
    ∧ resolveRankingAgeGroup y "U10" = AgeGroupResolution.resolved (y - 10) y
    ∧ resolveRankingAgeGroup y "U12" = AgeGroupResolution.resolved (y - 12) y
    ∧ resolveRankingAgeGroup y "U14" = AgeGroupResolution.resolved (y - 14) y
    ∧ resolveRankingAgeGroup y "U16" = AgeGroupResolution.resolved (y - 16) y
    ∧ resolveRankingAgeGroup y "U18" = AgeGroupResolution.resolved (y - 18) y
    ∧ resolveRankingAgeGroup y "S50" = AgeGroupResolution.resolved (y - 59) (y - 50)
    ∧ resolveRankingAgeGroup y "S60" = AgeGroupResolution.resolved (y - 69) (y - 60)
    ∧ resolveRankingAgeGroup y "S70" = AgeGroupResolution.resolved (y - 79) (y - 70) := by
  refine ⟨⟨rfl, rfl⟩, ⟨rfl, rfl⟩, rfl, rfl, rfl, rfl, rfl, rfl, rfl, rfl, rfl⟩

/-- The `validGroupCodes` list of `getAgeGroupStats` (players.service.ts
line 1066), transcribed exactly: it contains `U20` and not `S20`. -/
def statsValidGroupCodes : List String :=
  ["U8", "U10", "U12", "U14", "U16", "U18", "U20", "S40", "S50", "S60", "S70"]

/-- The validation step of `getAgeGroupStats` for a supplied group code
(players.service.ts lines 1075-1079): `true` means the code is rejected
with `BadRequestError`. -/
def ageGroupStatsRejects (groupCode : String) : Bool :=
  !(statsValidGroupCodes.contains groupCode)

/-- The validation step of `getRankingsByAgeGroup` (players.service.ts
lines 345-349): `true` means the code is rejected with
`BadRequestError`. -/
def rankingAgeGroupRejects (groupCode : String) : Bool :=
  !(rankingValidGroupCodes.contains groupCode)

/-- C3 (code_bug evidence): `getRankingsByAgeGroup` accepts exactly the
eleven canonical codes, but `getAgeGroupStats` rejects the canonical code
`S20` with `InvalidParameter` and instead accepts the non-canonical code
`U20`; the two operations validate against different lists. -/
theorem getAgeGroupStats_rejects_canonical_S20 :
    ageGroupStatsRejects "S20" = true
    ∧ ageGroupStatsRejects "U20" = false
    ∧ rankingAgeGroupRejects "S20" = false
    ∧ rankingAgeGroupRejects "U20" = true
    ∧ (∀ c, rankingAgeGroupRejects c = false ↔ c ∈ rankingValidGroupCodes)
    ∧ statsValidGroupCodes ≠ rankingValidGroupCodes := by
  refine ⟨rfl, rfl, rfl, rfl, ?_, by decide⟩
  intro c
  simp [rankingAgeGroupRejects]

/-- The aggregation test `$gt: [rating, 0]`. -/
def gt0 (n : Nat) : Bool := decide (0 < n)

/-- The aggregation test `$eq: [rating, 0]`. -/
def eq0 (n : Nat) : Bool := decide (n = 0)

/-- Condition of the `allThreeRatings` accumulator in `getPlayerStats`
(players.service.ts lines 527-541). -/
def isAllThree (p : Player) : Bool :=
  gt0 p.standard_rating && gt0 p.rapid_rating && gt0 p.blitz_rating

/-- Condition of the `standardAndRapidOnly` accumulator. -/
def isStandardAndRapidOnly (p : Player) : Bool :=
  gt0 p.standard_rating && gt0 p.rapid_rating && eq0 p.blitz_rating

/-- Condition of the `rapidAndBlitzOnly` accumulator. -/
def isRapidAndBlitzOnly (p : Player) : Bool :=
  eq0 p.standard_rating && gt0 p.rapid_rating && gt0 p.blitz_rating

/-- Condition of the `blitzAndStandardOnly` accumulator. -/
def isBlitzAndStandardOnly (p : Player) : Bool :=
  gt0 p.standard_rating && eq0 p.rapid_rating && gt0 p.blitz_rating

/-- Condition of the `standardOnly` accumulator. -/
def isStandardOnly (p : Player) : Bool :=
  gt0 p.standard_rating && eq0 p.rapid_rating && eq0 p.blitz_rating

/-- Condition of the `rapidOnly` accumulator. -/
def isRapidOnly (p : Player) : Bool :=
  eq0 p.standard_rating && gt0 p.rapid_rating && eq0 p.blitz_rating

/-- Condition of the `blitzOnly` accumulator. -/
def isBlitzOnly (p : Player) : Bool :=
  eq0 p.standard_rating && eq0 p.rapid_rating && gt0 p.blitz_rating

/-- Condition of the `unrated` accumulator. -/
def isUnrated (p : Player) : Bool :=
  eq0 p.standard_rating && eq0 p.rapid_rating && eq0 p.blitz_rating

/-- Condition of the `playersWithAtLeastOneRating` accumulator
(`$or` of the three `$gt` tests). -/
def hasAnyRating (p : Player) : Bool :=
  gt0 p.standard_rating || gt0 p.rapid_rating || gt0 p.blitz_rating

/-- The `ratingDistribution` facet result of `getPlayerStats`
(players.service.ts lines 523-664): each field is the number of records
of the population snapshot satisfying the corresponding condition. -/
structure RatingDist where
  allThreeRatings : Nat
  standardAndRapidOnly : Nat
  rapidAndBlitzOnly : Nat
  blitzAndStandardOnly : Nat
  standardOnly : Nat
  rapidOnly : Nat
  blitzOnly : Nat
  unrated : Nat
  playersWithAtLeastOneRating : Nat
deriving DecidableEq, Repr

/-- Embedding of the `ratingDistribution` facet over a population
snapshot. -/
def ratingDistribution (pop : List Player) : RatingDist :=
  { allThreeRatings := pop.countP isAllThree
    standardAndRapidOnly := pop.countP isStandardAndRapidOnly
    rapidAndBlitzOnly := pop.countP isRapidAndBlitzOnly
    blitzAndStandardOnly := pop.countP isBlitzAndStandardOnly
    standardOnly := pop.countP isStandardOnly
    rapidOnly := pop.countP isRapidOnly
    blitzOnly := pop.countP isBlitzOnly
    unrated := pop.countP isUnrated
    playersWithAtLeastOneRating := pop.countP hasAnyRating }

/-- C2 counterexample: on the one-record snapshot whose record is fully
unrated, the seven named rating-presence counts sum to 0 while the
population size is 1 — the seven counts do not sum to the population
size because they exclude the fully-unrated category. -/
theorem ratingDistribution_seven_counts_miss_unrated :
    (ratingDistribution [blankPlayer]).allThreeRatings
      + (ratingDistribution [blankPlayer]).standardAndRapidOnly
      + (ratingDistribution [blankPlayer]).rapidAndBlitzOnly
      + (ratingDistribution [blankPlayer]).blitzAndStandardOnly
      + (ratingDistribution [blankPlayer]).standardOnly
      + (ratingDistribution [blankPlayer]).rapidOnly
      + (ratingDistribution [blankPlayer]).blitzOnly = 0
    ∧ ([blankPlayer] : List Player).length = 1 := by
  exact ⟨rfl, rfl⟩

/-- C2 as amended: for any population snapshot the seven rated-presence
counts together with the fully-unrated count form a true partition —
their sum is exactly the population size, the seven counts alone sum to
the "at least one rating" count, and "at least one rating" equals the
population size minus the fully-unrated count. -/
theorem ratingDistribution_partition (pop : List Player) :
    ((ratingDistribution pop).allThreeRatings
      + (ratingDistribution pop).standardAndRapidOnly
      + (ratingDistribution pop).rapidAndBlitzOnly
      + (ratingDistribution pop).blitzAndStandardOnly
      + (ratingDistribution pop).standardOnly
      + (ratingDistribution pop).rapidOnly
      + (ratingDistribution pop).blitzOnly
      + (ratingDistribution pop).unrated = pop.length)
    ∧ ((ratingDistribution pop).allThreeRatings
      + (ratingDistribution pop).standardAndRapidOnly
      + (ratingDistribution pop).rapidAndBlitzOnly
      + (ratingDistribution pop).blitzAndStandardOnly
      + (ratingDistribution pop).standardOnly
      + (ratingDistribution pop).rapidOnly
      + (ratingDistribution pop).blitzOnly
      = (ratingDistribution pop).playersWithAtLeastOneRating)
    ∧ ((ratingDistribution pop).playersWithAtLeastOneRating
      = pop.length - (ratingDistribution pop).unrated)
    ∧ ((ratingDistribution pop).unrated ≤ pop.length) := by
  induction pop with
  | nil => exact ⟨rfl, rfl, rfl, Nat.le_refl 0⟩
  | cons p t ih =>
    obtain ⟨ih1, ih2, ih3, ih4⟩ := ih
    have hmono : List.countP isUnrated t ≤ t.length := List.countP_le_length _
    simp only [ratingDistribution, List.countP_cons, List.length_cons] at *
    rcases eq_or_ne p.standard_rating 0 with hs | hs <;>
      rcases eq_or_ne p.rapid_rating 0 with hr | hr <;>
        rcases eq_or_ne p.blitz_rating 0 with hb | hb <;>
          simp only [isAllThree, isStandardAndRapidOnly, isRapidAndBlitzOnly,
            isBlitzAndStandardOnly, isStandardOnly, isRapidOnly, isBlitzOnly,
            isUnrated, hasAnyRating, gt0, eq0] <;>
          simp [hs, hr, hb, Nat.pos_iff_ne_zero] <;>
          omega

/-- Discriminator for the embedded thrown-vs-returned outcome. -/
def isErrorResult {α : Type} : Except String α → Bool
  | Except.error _ => true
  | Except.ok _ => false

/-- Embedding of the rating-bound block of `PlayersService.advancedSearch`
(players.service.ts lines 144-160): each bound participates only when
truthy; a bound whose `parseInt` is `NaN` throws `BadRequestError`
(minRating checked first); otherwise the parsed values become the
`$gte`/`$lte` bounds of the `standard_rating` filter.  No sign check is
performed by the code. -/
def advancedSearchRatingClause (minR maxR : Option String) :
    Except String (Option Int × Option Int) :=
  if jsTruthy minR || jsTruthy maxR then
    let lo : Except String (Option Int) :=
      if jsTruthy minR then
        match parseIntJS (minR.getD "") with
        | some v => Except.ok (some v)
        | none => Except.error "minRating must be a valid number"
      else Except.ok none
    match lo with
    | Except.error e => Except.error e
    | Except.ok lov =>
      let hi : Except String (Option Int) :=
        if jsTruthy maxR then
          match parseIntJS (maxR.getD "") with
          | some v => Except.ok (some v)
          | none => Except.error "maxRating must be a valid number"
        else Except.ok none
      match hi with
      | Except.error e => Except.error e
      | Except.ok hiv => Except.ok (lov, hiv)
  else Except.ok (none, none)

/-- Modelled from the spec: the claim's acceptance predicate, "parses as
a non-negative integer". -/
def parsesAsNonNegInt (s : String) : Bool :=
  match parseIntJS s with
  | some v => decide (0 ≤ v)
  | none => false

/-- C4 counterexample: `minRating = "-5"` parses to the negative integer
-5, so per the claim it should be rejected with `InvalidParameter`, yet
the builder accepts it and issues the query with `$gte: -5`. -/
theorem advancedSearch_accepts_negative_minRating :
    advancedSearchRatingClause (some "-5") none = Except.ok (some (-5), none)
    ∧ jsTruthy (some "-5") = true
    ∧ parsesAsNonNegInt "-5" = false := by
  exact ⟨rfl, rfl, rfl⟩

/-- C4 as amended: the builder raises `InvalidParameter` if and only if a
supplied (truthy) `minRating` or `maxRating` fails to parse as an integer
at all (`parseInt` yields `NaN`); any parsed integer, including a
negative one, is accepted, and when both bounds parse the query is issued
with both bounds regardless of whether min exceeds max. -/
theorem advancedSearchRating_rejects_iff_NaN (minR maxR : Option String) :
    (isErrorResult (advancedSearchRatingClause minR maxR) = true
      ↔ ((jsTruthy minR = true ∧ parseIntJS (minR.getD "") = none)
        ∨ (jsTruthy maxR = true ∧ parseIntJS (maxR.getD "") = none)))
    ∧ (∀ a b : Int, jsTruthy minR = true → jsTruthy maxR = true →
        parseIntJS (minR.getD "") = some a → parseIntJS (maxR.getD "") = some b →
        advancedSearchRatingClause minR maxR = Except.ok (some a, some b)) := by
  constructor
  · cases hm : jsTruthy minR <;> cases hx : jsTruthy maxR <;>
      simp only [advancedSearchRatingClause, hm, hx, Bool.false_or, Bool.true_or,
        Bool.or_false, Bool.or_true, if_true, if_false, Bool.false_eq_true,
        false_and, true_and, or_false, false_or, if_neg, if_pos]
    · simp [isErrorResult]
    · cases hpx : parseIntJS (maxR.getD "") <;> simp [isErrorResult, hpx]
    · cases hpm : parseIntJS (minR.getD "") <;> simp [isErrorResult, hpm]
    · cases hpm : parseIntJS (minR.getD "") <;>
        cases hpx : parseIntJS (maxR.getD "") <;>
          simp [isErrorResult, hpm, hpx]
  · intro a b hm hx hpm hpx
    simp only [advancedSearchRatingClause, hm, hx, hpm, hpx, Bool.true_or, if_true]

/-- Witness for C4 (amended) at concrete inverted bounds: min 2000 over
max 1500 is accepted, not an error. -/
theorem advancedSearchRating_rejects_iff_NaN_witness :
    advancedSearchRatingClause (some "2000") (some "1500")
      = Except.ok (some 2000, some 1500) :=
  (advancedSearchRating_rejects_iff_NaN (some "2000") (some "1500")).2
    2000 1500 (by decide) (by decide) (by decide) (by decide)

/-- The `title` filter clause of `advancedSearch` as it stands after the
two assignments (players.service.ts lines 135-141): a truthy `title`
parameter writes `{$in: [title]}`, then `hasTitle === "true"` overwrites
the same object key with `{$exists: true, $ne: []}`. -/
inductive TitleClause where
  | noConstraint
  | inSpecific (t : String)
  | existsNonEmpty
deriving DecidableEq, Repr

/-- Embedding of the title-clause construction of `advancedSearch`. -/
def buildTitleClause (titleParam hasTitle : Option String) : TitleClause :=
  let afterTitle :=
    if jsTruthy titleParam then TitleClause.inSpecific (titleParam.getD "")
    else TitleClause.noConstraint
  if hasTitle = some "true" then TitleClause.existsNonEmpty else afterTitle

/-- Satisfaction of the produced Mongo predicate by a record's `title`
array: `{$in: [t]}` holds when the array contains `t`; `{$exists: true,
$ne: []}` holds when the (always present) array is non-empty. -/
def titleClauseMatches (c : TitleClause) (titles : List String) : Bool :=
  match c with
  | TitleClause.noConstraint => true
  | TitleClause.inSpecific t => titles.contains t
  | TitleClause.existsNonEmpty => !titles.isEmpty

/-- C9: when both a truthy specific title and `hasTitle=true` are
supplied, the built clause is the non-empty-titles predicate, constrains
nothing about the specific value, and is satisfied exactly by non-empty
title arrays; with only one of the two supplied, that one's predicate
applies (`$in` membership, respectively non-emptiness). -/
theorem titleClause_overwrite (t : String) (ht : t ≠ "") (titles : List String) :
    (buildTitleClause (some t) (some "true") = TitleClause.existsNonEmpty
      ∧ (titleClauseMatches (buildTitleClause (some t) (some "true")) titles = true
        ↔ titles ≠ []))
    ∧ (buildTitleClause (some t) none = TitleClause.inSpecific t
      ∧ (titleClauseMatches (buildTitleClause (some t) none) titles = true
        ↔ t ∈ titles))
    ∧ buildTitleClause none (some "true") = TitleClause.existsNonEmpty
    ∧ buildTitleClause none none = TitleClause.noConstraint := by
  refine ⟨⟨rfl, ?_⟩, ⟨?_, ?_⟩, rfl, rfl⟩
  · simp [buildTitleClause, titleClauseMatches]
  · simp [buildTitleClause, jsTruthy, ht]
  · simp [buildTitleClause, titleClauseMatches, jsTruthy, ht]
/-- Witness for C9 at a concrete record: with both filters supplied, a
record titled only `IM` matches even though the specific title asked for
was `GM`. -/
theorem titleClause_overwrite_witness :
    (titleClauseMatches (buildTitleClause (some "GM") (some "true")) ["IM"] = true
      ↔ (["IM"] : List String) ≠ [])
    ∧ buildTitleClause (some "GM") none = TitleClause.inSpecific "GM" :=
  ⟨((titleClause_overwrite "GM" (by decide) ["IM"]).1).2,
   ((titleClause_overwrite "GM" (by decide) ["IM"]).2).1.1⟩

/-- The fixed trainer code set (players.service.ts lines 1275, 1589). -/
def trainerCodes : List String := ["FST", "FT", "SI", "NI", "DI"]

/-- Trainer membership as tested by the `trainers`/`trainersSummary`
facets of `getTitlePlayers` (players.service.ts lines 1271-1325): the
Mongo predicate `o_title: {$in: trainerCodes}` on the array field holds
when some element of `o_title` is a trainer code. -/
def isTrainerInTitlePlayers (p : Player) : Bool :=
  p.o_title.any (fun t => trainerCodes.contains t)

/-- JavaScript `toLowerCase()` restricted to ASCII, as a plain
character map (`Char.toLower` on each character). -/
def jsToLower (s : String) : String :=
  String.mk (s.data.map Char.toLower)

/-- JavaScript `toUpperCase()` restricted to ASCII, as a plain
character map. -/
def jsToUpper (s : String) : String :=
  String.mk (s.data.map Char.toUpper)

/-- The `titleGroups` category-key table of `getPlayersByTitleType`
(players.service.ts lines 1588-1599); an unknown key falls back to the
single uppercased code. -/
def titleGroups (titleType : String) : List String :=
  match jsToLower titleType with
  | "trainers" => ["FST", "FT", "SI", "NI", "DI"]
  | "arbiters" => ["IA", "FA", "NA"]
  | "gm" => ["GM"]
  | "wgm" => ["WGM"]
  | "im" => ["IM"]
  | "wim" => ["WIM"]
  | "fm" => ["FM"]
  | "wfm" => ["WFM"]
  | _ => [jsToUpper titleType]

/-- Record-selection predicate of the `getPlayersByTitleType` store query
(players.service.ts lines 1601-1607): `$or` of `$in` tests over all
three title arrays. -/
def matchesTitleType (titleType : String) (p : Player) : Bool :=
  let titles := titleGroups titleType
  p.title.any (fun t => titles.contains t)
    || p.w_title.any (fun t => titles.contains t)
    || p.o_title.any (fun t => titles.contains t)

/-- Per-sub-type breakdown counter of `getPlayersByTitleType` for the
grouped `trainers`/`arbiters` categories (players.service.ts lines
1629-1661): for each listed code, the number of selected records whose
`o_title` contains that code. -/
def titleTypeBreakdown (players : List Player) (code : String) : Nat :=
  players.countP (fun p => p.o_title.contains code)

/-- C8 counterexample: a record carrying `FT` only in its playing-titles
array (empty `o_title`) is selected by `getPlayersByTitleType` for
category key `trainers`, although no trainer code is present in its
"other titles" set — so trainer classification in that operation is not
o_title-only as claimed (while `getTitlePlayers` does classify the same
record as a non-trainer). -/
theorem getPlayersByTitleType_trainers_not_o_title_only :
    matchesTitleType "trainers"
        { blankPlayer with title := ["FT"], w_title := [], o_title := [] } = true
    ∧ isTrainerInTitlePlayers
        { blankPlayer with title := ["FT"], w_title := [], o_title := [] } = false := by
  exact ⟨by decide, by decide⟩

/-- C8 as amended: in the grouped title summary (`getTitlePlayers`) a
record is a trainer iff a code of {FST, FT, SI, NI, DI} appears in its
"other titles" set; in the lookup-by-category operation
(`getPlayersByTitleType` with key `trainers`) a record is selected iff a
trainer code appears in any of the three title sets (titles,
women-titles, other-titles), and the per-sub-type breakdown counts, for
each trainer code, exactly the selected records whose "other titles" set
contains that code. -/
theorem trainer_classification (p : Player) (players : List Player) (c : String) :
    (isTrainerInTitlePlayers p = true ↔ ∃ t ∈ p.o_title, t ∈ trainerCodes)
    ∧ (matchesTitleType "trainers" p = true
      ↔ ((∃ t ∈ p.title, t ∈ trainerCodes) ∨ (∃ t ∈ p.w_title, t ∈ trainerCodes)
        ∨ (∃ t ∈ p.o_title, t ∈ trainerCodes)))
    ∧ titleTypeBreakdown players c
      = (players.filter (fun p => p.o_title.contains c)).length := by
  refine ⟨?_, ?_, ?_⟩
  · simp [isTrainerInTitlePlayers, List.any_eq_true]
  · have hgroups : titleGroups "trainers" = trainerCodes := rfl
    simp [matchesTitleType, hgroups, List.any_eq_true]
    exact or_assoc
  · simp [titleTypeBreakdown, List.countP_eq_length_filter]
